import Mathlib

/-!
Verification of the CPU_SIM pipelined RISC-V simulator.

This file gives a shallow embedding, in Lean 4, of the parts of the C++
sources that the checked claims are about:

* `ALU.cpp`            — the integer ALU (`aluExecute`);
* `MemoryIf.h`         — the backing RAM (`Ram`, `ramLoad`, `ramStore`);
* `Cache.h`            — the three cache variants (direct mapped, fully
                         associative, N-way set associative);
* `BranchPredictor.h`  — the bimodal 2-bit predictor and the always-taken
                         predictor;
* `CPU.cpp`            — the five pipeline stages, the tick function
                         `run_pipeline_cycle`, and the helpers
                         `check_address_alignment`, `read_memory`,
                         `write_memory`, `generate_immediate`,
                         `decode_instruction`, `get_register_value`.

Machine integers are embedded as `Nat`/`Int` with explicit reduction
modulo `2^32` where the C++ arithmetic wraps; `x & 0xFF` is written
`x % 256`, `x & ~(2^k - 1)` as rounding down to a multiple of `2^k`,
and so on, each time on a value for which the two coincide.
Fallible operations return a success flag exactly like the C++
(`MemResp.ok`, `bool store(...)`).
-/

/-- Interpret an integer as a 32-bit two's-complement value (the wrap-around
behaviour of `int32_t` arithmetic in the simulator). -/
def toInt32 (z : Int) : Int := (z + 2147483648) % 4294967296 - 2147483648

/-- `static_cast<uint32_t>` of a 32-bit signed value: the residue in
`[0, 2^32)`. -/
def toUInt32 (z : Int) : Int := z % 4294967296

/-- `uint32_t` addition of a PC and a (signed) immediate, as in
`uint32_t target = pc + imm`. -/
def uadd32 (p : Nat) (i : Int) : Nat := ((p + i) % 4294967296).toNat

/-!  ## ALU.cpp — `ALU::execute`

`aluResult` is the `result` computed by the big `switch(aluOp)`;
`aluExecute` additionally returns the `zero_flag`, set inside the branch
cases `0x30..0x35` and by the trailing
`if (aluOp != 0x30 && ... && aluOp != 0x35) zero_flag = (result == 0);`
for every other op.  Signed overflow of `int32_t` is modelled as
two's-complement wrap-around. -/

/-- The `result` of `ALU::execute` (`ALU.cpp`). -/
def aluResult (a b : Int) (op : Nat) : Int :=
  match op with
  | 0x00 | 0x40 | 0x41 | 0x42 | 0x43 | 0x44 | 0x45 | 0x46 | 0x47 =>
      toInt32 (a + b)
  | 0x01 => toInt32 (a - b)
  | 0x10 | 0x19 => toInt32 (Nat.land (toUInt32 a).toNat (toUInt32 b).toNat)
  | 0x11 | 0x18 => toInt32 (Nat.lor (toUInt32 a).toNat (toUInt32 b).toNat)
  | 0x12 | 0x17 => toInt32 (Nat.xor (toUInt32 a).toNat (toUInt32 b).toNat)
  | 0x13 | 0x15 => if a < b then 1 else 0
  | 0x14 | 0x16 => if toUInt32 a < toUInt32 b then 1 else 0
  | 0x20 | 0x23 => toInt32 (a * 2 ^ ((toUInt32 b).toNat % 32))
  | 0x21 | 0x24 => toInt32 ((toUInt32 a).toNat / 2 ^ ((toUInt32 b).toNat % 32))
  | 0x22 | 0x25 =>
      /- `operand1 >> sh` with sign preserved: arithmetic shift right,
         i.e. floor division by `2^sh`; the extra `result |= ~0U << (32-sh)`
         of the source only re-asserts high bits this already has. -/
      a / 2 ^ ((toUInt32 b).toNat % 32)
  | 0x30 | 0x35 | 0x31 | 0x33 | 0x32 | 0x34 => toInt32 (a - b)
  | 0xF => a
  | 0x60 => toInt32 (a * b)
  | 0x61 => toInt32 ((a * b) / 4294967296)
  | 0x62 => toInt32 ((a * toUInt32 b) / 4294967296)
  | 0x63 => toInt32 ((toUInt32 a * toUInt32 b) / 4294967296)
  | 0x64 =>
      if b = 0 then -1
      else if a = -2147483648 ∧ b = -1 then -2147483648
      else Int.tdiv a b
  | 0x65 =>
      if b = 0 then toInt32 4294967295
      else toInt32 ((toUInt32 a).toNat / (toUInt32 b).toNat)
  | 0x66 =>
      if b = 0 then a
      else if a = -2147483648 ∧ b = -1 then 0
      else Int.tmod a b
  | 0x67 =>
      if b = 0 then a
      else toInt32 ((toUInt32 a).toNat % (toUInt32 b).toNat)
  | _ => 0

/-- `ALU::execute`: the `(result, zero_flag)` pair. -/
def aluExecute (a b : Int) (op : Nat) : Int × Bool :=
  let r := aluResult a b op
  let flag : Bool :=
    match op with
    | 0x30 => decide (r = 0)
    | 0x35 => decide (r = 0)
    | 0x31 => decide (0 ≤ r)
    | 0x33 => decide (r < 0)
    | 0x32 => decide (toUInt32 b ≤ toUInt32 a)
    | 0x34 => decide (toUInt32 a < toUInt32 b)
    | _ => decide (r = 0)
  (r, flag)

/-!  ## MemoryIf.h — `SimpleRAM` -/

/-- The backing RAM: a fixed-size byte store (`std::vector<uint8_t>`),
modelled as a byte function plus its size. -/
structure Ram where
  size : Nat
  mem : Nat → Nat
  deriving Inhabited

/-- `SimpleRAM::packLE`: assemble `sz` little-endian bytes starting at `p`
(`p[0] | p[1]<<8 | ...`; the bytes are `< 256`, so the ors are sums). -/
def packLE (mem : Nat → Nat) (p sz : Nat) : Nat :=
  match sz with
  | 1 => mem p
  | 2 => mem p + 256 * mem (p + 1)
  | 4 => mem p + 256 * mem (p + 1) + 65536 * mem (p + 2)
         + 16777216 * mem (p + 3)
  | _ => 0

/-- Point update of a byte function. -/
def updByte (mem : Nat → Nat) (i v : Nat) : Nat → Nat :=
  fun j => if j = i then v else mem j

/-- `SimpleRAM::unpackLE`: scatter the low `sz` bytes of `v` little-endian
starting at `p` (`(v >> 8k) & 0xFF` written `v / 256^k % 256`). -/
def unpackLE (mem : Nat → Nat) (p v sz : Nat) : Nat → Nat :=
  let m0 := updByte mem p (v % 256)
  let m1 := if sz = 2 ∨ sz = 4 then updByte m0 (p + 1) (v / 256 % 256) else m0
  if sz = 4 then
    updByte (updByte m1 (p + 2) (v / 65536 % 256)) (p + 3) (v / 16777216 % 256)
  else m1

/-- `SimpleRAM::load`: bounds check `addr + size > mem_.size()`, then pack. -/
def ramLoad (r : Ram) (addr sz : Nat) : Bool × Nat :=
  if addr + sz > r.size then (false, 0)
  else (true, packLE r.mem addr sz)

/-- `SimpleRAM::store`: bounds check, then unpack in place. -/
def ramStore (r : Ram) (addr v sz : Nat) : Ram × Bool :=
  if addr + sz > r.size then (r, false)
  else ({ r with mem := unpackLE r.mem addr v sz }, true)

/-!  ## CPU.cpp — `check_address_alignment`, `read_memory`, `write_memory`

`MEMORY_SIZE` is 4096 in `CPU.cpp`.  The CPU's data memory `dmem_` is any
`MemoryDevice`; the pipeline runs below instantiate it with a `SimpleRAM`.
-/

/-- `CPU::check_address_alignment`. -/
def check_address_alignment (address bytes : Nat) : Bool :=
  if address ≥ 4096 then false
  else if bytes = 2 ∧ address % 2 ≠ 0 then false
  else if bytes = 4 ∧ address % 4 ≠ 0 then false
  else true

/-- Access size used by `CPU::read_memory` for a read type
(1=LB, 2=LBU, 3=LH, 4=LHU, 5=LW; 0 = no valid type). -/
def readSize (ty : Nat) : Nat :=
  match ty with
  | 1 | 2 => 1
  | 3 | 4 => 2
  | 5 => 4
  | _ => 0

/-- Sign-extension of the low 8 bits, as `(int8_t)(data & 0xFF)`. -/
def sext8 (d : Nat) : Int :=
  if d % 256 ≥ 128 then (d % 256 : Int) - 256 else (d % 256 : Int)

/-- Sign-extension of the low 16 bits, as `(int16_t)(data & 0xFFFF)`. -/
def sext16 (d : Nat) : Int :=
  if d % 65536 ≥ 32768 then (d % 65536 : Int) - 65536 else (d % 65536 : Int)

/-- Reading a 32-bit pattern as `int32_t`. -/
def sext32 (d : Nat) : Int :=
  if d % 4294967296 ≥ 2147483648 then (d % 4294967296 : Int) - 4294967296
  else (d % 4294967296 : Int)

/-- `CPU::read_memory` over a `SimpleRAM` data memory: invalid type or a
failed alignment/bounds check yields 0, otherwise the loaded value is
sign- or zero-extended according to the type. -/
def read_memory (r : Ram) (address ty : Nat) : Int :=
  let sz := readSize ty
  if sz = 0 then 0
  else if ¬ check_address_alignment address sz then 0
  else
    let res := ramLoad r address sz
    if ¬ res.1 then 0
    else match ty with
      | 1 => sext8 res.2
      | 2 => (res.2 % 256 : Nat)
      | 3 => sext16 res.2
      | 4 => (res.2 % 65536 : Nat)
      | _ => sext32 res.2

/-- Access size used by `CPU::write_memory` (1=SB, 2=SH, 3=SW). -/
def writeSize (ty : Nat) : Nat :=
  match ty with
  | 1 => 1
  | 2 => 2
  | 3 => 4
  | _ => 0

/-- `CPU::write_memory` over a `SimpleRAM` data memory: invalid type or a
failed alignment check leaves the memory untouched; otherwise the store is
issued (its own bounds failure also leaves the RAM unchanged). -/
def write_memory (r : Ram) (address : Nat) (value : Int) (ty : Nat) : Ram :=
  let sz := writeSize ty
  if sz = 0 then r
  else if ¬ check_address_alignment address sz then r
  else (ramStore r address (toUInt32 value).toNat sz).1

/-!  ## Cache.h — the three cache variants

All three caches share the write-through + write-allocate policy and the
same line-fill loop.  Power-of-two parameters let the source's bit tricks
be written arithmetically: `addr & ~(lineSize-1)` is rounding down to a
multiple of `lineSize`, `x >> ctz(lineSize)` is `x / lineSize`, and
`x & (n-1)` is kept as `Nat.land`.  LRU lists are `List Nat` with the
most recently used element at the head, as in the `std::list` code
(`remove` removes every occurrence, hence `List.filter`).
-/

/-- The offsets `0, 4, ..., lineSize-4` walked by `fillLine`. -/
def lineWords (lineSize : Nat) : List Nat :=
  (List.range (lineSize / 4)).map (fun k => 4 * k)

/-- The inner loop of `fillLine` (common to the three caches): issue one
word load to the lower device per offset, scattering the bytes into the
cache data array at `base + i`; on the first failing sub-load stop,
keeping the bytes already written, and report failure. -/
def cacheFillBytes (lower : Ram) (data : Nat → Nat) (base lineBase : Nat) :
    List Nat → (Nat → Nat) × Bool
  | [] => (data, true)
  | i :: rest =>
      let r := ramLoad lower (lineBase + i) 4
      if r.1 then cacheFillBytes lower (unpackLE data (base + i) r.2 4) base lineBase rest
      else (data, false)

/-- `updateLRU`: move `way` to the front (MRU) of the list, removing every
other occurrence (`std::list::remove` + `push_front`). -/
def lruPromote (l : List Nat) (way : Nat) : List Nat :=
  way :: l.filter (fun x => x ≠ way)

/-- `getLRUVictim`: the victim is the back (LRU) of the list; it is popped
and pushed to the front. -/
def lruVictim (l : List Nat) : Nat × List Nat :=
  let victim := l.getLastD 0
  (victim, victim :: l.dropLast)

/-!  ### DirectMappedCache -/

/-- `DirectMappedCache` state: `data_`, `tags_`, `valids_`, counters. -/
structure DMCache where
  lineSize : Nat
  numLines : Nat
  data : Nat → Nat
  tags : Nat → Nat
  valids : Nat → Bool
  hits : Nat
  misses : Nat

/-- A freshly constructed direct-mapped cache (all lines invalid). -/
def DMCache.init (totalSize lineSize : Nat) : DMCache :=
  { lineSize := lineSize, numLines := totalSize / lineSize,
    data := fun _ => 0, tags := fun _ => 0, valids := fun _ => false,
    hits := 0, misses := 0 }

/-- `DirectMappedCache::decode`: `(idx, tag, lineBase)`. -/
def DMCache.decode (c : DMCache) (addr : Nat) : Nat × Nat × Nat :=
  let lineBase := addr / c.lineSize * c.lineSize
  let idx := Nat.land (lineBase / c.lineSize) (c.numLines - 1)
  let tag := lineBase / c.lineSize
  (idx, tag, lineBase)

/-- `DirectMappedCache::fillLine` acting on a cache state. -/
def DMCache.fillLine (c : DMCache) (lower : Ram) (idx tag lineBase : Nat) :
    DMCache × Bool :=
  let fl := cacheFillBytes lower c.data (idx * c.lineSize) lineBase (lineWords c.lineSize)
  if fl.2 then
    ({ c with data := fl.1,
               tags := fun j => if j = idx then tag else c.tags j,
               valids := fun j => if j = idx then true else c.valids j }, true)
  else ({ c with data := fl.1 }, false)

/-- `DirectMappedCache::load`. -/
def DMCache.load (c : DMCache) (lower : Ram) (addr sz : Nat) :
    DMCache × Bool × Nat :=
  let d := c.decode addr
  let idx := d.1; let tag := d.2.1; let lineBase := d.2.2
  if c.valids idx ∧ c.tags idx = tag then
    ({ c with hits := c.hits + 1 }, true,
     packLE c.data (idx * c.lineSize + (addr - lineBase)) sz)
  else
    let c1 := { c with misses := c.misses + 1 }
    let f := c1.fillLine lower idx tag lineBase
    if f.2 then
      (f.1, true, packLE f.1.data (idx * c.lineSize + (addr - lineBase)) sz)
    else (f.1, false, 0)

/-- `DirectMappedCache::store` (write-allocate, then write-through; note the
source counts the miss only after a successful fill). -/
def DMCache.store (c : DMCache) (lower : Ram) (addr v sz : Nat) :
    DMCache × Ram × Bool :=
  let d := c.decode addr
  let idx := d.1; let tag := d.2.1; let lineBase := d.2.2
  let step :=
    if c.valids idx ∧ c.tags idx = tag then some { c with hits := c.hits + 1 }
    else
      let f := c.fillLine lower idx tag lineBase
      if f.2 then some { f.1 with misses := f.1.misses + 1 } else none
  match step with
  | none => ((c.fillLine lower idx tag lineBase).1, lower, false)
  | some c1 =>
      let c2 := { c1 with
        data := unpackLE c1.data (idx * c.lineSize + (addr - lineBase)) v sz }
      let w := ramStore lower addr v sz
      (c2, w.1, w.2)

/-!  ### FullyAssociativeCache -/

/-- `FullyAssociativeCache` state, with its single global LRU list. -/
structure FACache where
  lineSize : Nat
  numLines : Nat
  data : Nat → Nat
  tags : Nat → Nat
  valids : Nat → Bool
  hits : Nat
  misses : Nat
  lruList : List Nat

/-- A freshly constructed fully associative cache. -/
def FACache.init (totalSize lineSize : Nat) : FACache :=
  { lineSize := lineSize, numLines := totalSize / lineSize,
    data := fun _ => 0, tags := fun _ => 0, valids := fun _ => false,
    hits := 0, misses := 0, lruList := List.range (totalSize / lineSize) }

/-- `FullyAssociativeCache::decode`: `(tag, lineBase)`. -/
def FACache.decode (c : FACache) (addr : Nat) : Nat × Nat :=
  let lineBase := addr / c.lineSize * c.lineSize
  (lineBase / c.lineSize, lineBase)

/-- The linear search over all lines for `valid && tag match` (first hit
wins, as in the `for` loop). -/
def FACache.find (c : FACache) (tag : Nat) : Option Nat :=
  (List.range c.numLines).find? (fun i => c.valids i ∧ c.tags i = tag)

/-- `FullyAssociativeCache::fillLine` (ends with `updateLRU(idx)`). -/
def FACache.fillLine (c : FACache) (lower : Ram) (idx tag lineBase : Nat) :
    FACache × Bool :=
  let fl := cacheFillBytes lower c.data (idx * c.lineSize) lineBase (lineWords c.lineSize)
  if fl.2 then
    ({ c with data := fl.1,
               tags := fun j => if j = idx then tag else c.tags j,
               valids := fun j => if j = idx then true else c.valids j,
               lruList := lruPromote c.lruList idx }, true)
  else ({ c with data := fl.1 }, false)

/-- `FullyAssociativeCache::load`. -/
def FACache.load (c : FACache) (lower : Ram) (addr sz : Nat) :
    FACache × Bool × Nat :=
  let d := c.decode addr
  let tag := d.1; let lineBase := d.2
  match c.find tag with
  | some i =>
      ({ c with hits := c.hits + 1, lruList := lruPromote c.lruList i }, true,
       packLE c.data (i * c.lineSize + (addr - lineBase)) sz)
  | none =>
      let v := lruVictim c.lruList
      let c1 := { c with misses := c.misses + 1, lruList := v.2 }
      let f := c1.fillLine lower v.1 tag lineBase
      if f.2 then
        (f.1, true, packLE f.1.data (v.1 * c.lineSize + (addr - lineBase)) sz)
      else (f.1, false, 0)

/-- `FullyAssociativeCache::store`. -/
def FACache.store (c : FACache) (lower : Ram) (addr v sz : Nat) :
    FACache × Ram × Bool :=
  let d := c.decode addr
  let tag := d.1; let lineBase := d.2
  match c.find tag with
  | some i =>
      let c1 := { c with hits := c.hits + 1, lruList := lruPromote c.lruList i }
      let c2 := { c1 with
        data := unpackLE c1.data (i * c.lineSize + (addr - lineBase)) v sz }
      let w := ramStore lower addr v sz
      (c2, w.1, w.2)
  | none =>
      let vi := lruVictim c.lruList
      let c1 := { c with misses := c.misses + 1, lruList := vi.2 }
      let f := c1.fillLine lower vi.1 tag lineBase
      if f.2 then
        let c2 := { f.1 with
          data := unpackLE f.1.data (vi.1 * c.lineSize + (addr - lineBase)) v sz }
        let w := ramStore lower addr v sz
        (c2, w.1, w.2)
      else (f.1, lower, false)

/-!  ### SetAssociativeCache -/

/-- `SetAssociativeCache` state, with one LRU list per set. -/
structure SACache where
  lineSize : Nat
  assoc : Nat
  numSets : Nat
  data : Nat → Nat
  tags : Nat → Nat
  valids : Nat → Bool
  hits : Nat
  misses : Nat
  lruLists : Nat → List Nat

/-- A freshly constructed set-associative cache (each set's LRU list is
`[0, ..., associativity-1]`). -/
def SACache.init (totalSize lineSize assoc : Nat) : SACache :=
  { lineSize := lineSize, assoc := assoc,
    numSets := totalSize / (lineSize * assoc),
    data := fun _ => 0, tags := fun _ => 0, valids := fun _ => false,
    hits := 0, misses := 0, lruLists := fun _ => List.range assoc }

/-- `SetAssociativeCache::decode`: `(set, tag, lineBase)`; the set index is
the low `log2(numSets)` bits of the line number, the tag the bits above. -/
def SACache.decode (c : SACache) (addr : Nat) : Nat × Nat × Nat :=
  let lineBase := addr / c.lineSize * c.lineSize
  let set := Nat.land (lineBase / c.lineSize) (c.numSets - 1)
  let tag := lineBase / c.lineSize / c.numSets
  (set, tag, lineBase)

/-- The way search within one set (first match wins). -/
def SACache.find (c : SACache) (set tag : Nat) : Option Nat :=
  (List.range c.assoc).find?
    (fun way => c.valids (set * c.assoc + way) ∧ c.tags (set * c.assoc + way) = tag)

/-- `SetAssociativeCache::fillLine` (ends with
`updateLRU(idx / associativity, idx % associativity)`). -/
def SACache.fillLine (c : SACache) (lower : Ram) (idx tag lineBase : Nat) :
    SACache × Bool :=
  let fl := cacheFillBytes lower c.data (idx * c.lineSize) lineBase (lineWords c.lineSize)
  if fl.2 then
    let set := idx / c.assoc
    let way := idx % c.assoc
    ({ c with data := fl.1,
               tags := fun j => if j = idx then tag else c.tags j,
               valids := fun j => if j = idx then true else c.valids j,
               lruLists := fun s => if s = set then lruPromote (c.lruLists set) way
                           else c.lruLists s }, true)
  else ({ c with data := fl.1 }, false)

/-- `SetAssociativeCache::load`. -/
def SACache.load (c : SACache) (lower : Ram) (addr sz : Nat) :
    SACache × Bool × Nat :=
  let d := c.decode addr
  let set := d.1; let tag := d.2.1; let lineBase := d.2.2
  match c.find set tag with
  | some way =>
      let idx := set * c.assoc + way
      ({ c with hits := c.hits + 1,
                 lruLists := fun s => if s = set then lruPromote (c.lruLists set) way
                             else c.lruLists s }, true,
       packLE c.data (idx * c.lineSize + (addr - lineBase)) sz)
  | none =>
      let v := lruVictim (c.lruLists set)
      let c1 := { c with misses := c.misses + 1,
                          lruLists := fun s => if s = set then v.2 else c.lruLists s }
      let idx := set * c.assoc + v.1
      let f := c1.fillLine lower idx tag lineBase
      if f.2 then
        (f.1, true, packLE f.1.data (idx * c.lineSize + (addr - lineBase)) sz)
      else (f.1, false, 0)

/-- `SetAssociativeCache::store`. -/
def SACache.store (c : SACache) (lower : Ram) (addr v sz : Nat) :
    SACache × Ram × Bool :=
  let d := c.decode addr
  let set := d.1; let tag := d.2.1; let lineBase := d.2.2
  match c.find set tag with
  | some way =>
      let idx := set * c.assoc + way
      let c1 := { c with hits := c.hits + 1,
                          lruLists := fun s => if s = set then lruPromote (c.lruLists set) way
                                      else c.lruLists s }
      let c2 := { c1 with
        data := unpackLE c1.data (idx * c.lineSize + (addr - lineBase)) v sz }
      let w := ramStore lower addr v sz
      (c2, w.1, w.2)
  | none =>
      let vi := lruVictim (c.lruLists set)
      let c1 := { c with misses := c.misses + 1,
                          lruLists := fun s => if s = set then vi.2 else c.lruLists s }
      let idx := set * c.assoc + vi.1
      let f := c1.fillLine lower idx tag lineBase
      if f.2 then
        let c2 := { f.1 with
          data := unpackLE f.1.data (idx * c.lineSize + (addr - lineBase)) v sz }
        let w := ramStore lower addr v sz
        (c2, w.1, w.2)
      else (f.1, lower, false)

/-!  ## BranchPredictor.h

The pipeline holds a `BranchPredictorScheme*` that may be null (the CLI
driver never installs one); the GUI can install any of the five schemes.
We embed the null pointer, the always-taken scheme, and (standalone,
below) the bimodal scheme.
-/

/-- The pipeline's predictor slot: null, or an `AlwaysTakenPredictor`
with its `correct_`/`incorrect_` counters. -/
inductive Predictor where
  | nullp : Predictor
  | alwaysTaken (correct incorrect : Nat) : Predictor
  deriving DecidableEq

/-- `predict(pc, target)`; `none` models the null pointer (never called). -/
def Predictor.predict : Predictor → Nat → Nat → Option (Bool × Nat)
  | .nullp, _, _ => none
  | .alwaysTaken _ _, _, target => some (true, target)

/-- `update(pc, target, taken)`. -/
def Predictor.update : Predictor → Nat → Nat → Bool → Predictor
  | .nullp, _, _, _ => .nullp
  | .alwaysTaken c i, _, _, taken =>
      if taken then .alwaysTaken (c + 1) i else .alwaysTaken c (i + 1)

/-!  ## CPU.h / CPU.cpp — pipeline latches and machine state

The `float` fields of the latches are carried as 32-bit patterns (`Nat`).
The statistics counters, trace vectors and logging of the source are
write-only observers and are not part of the embedded state.
-/

/-- `IF_ID_Register`. -/
structure IF_ID_Register where
  instruction : Nat
  pc : Nat
  valid : Bool
  is_compressed : Bool
  compressed_inst : Nat

/-- The default-constructed `IF_ID_Register`. -/
def IF_ID_Register.init : IF_ID_Register :=
  { instruction := 0, pc := 0, valid := false, is_compressed := false,
    compressed_inst := 0 }

/-- `ID_EX_Register`. -/
structure ID_EX_Register where
  regWrite : Bool
  aluSrc : Bool
  branch : Bool
  memRe : Bool
  memWr : Bool
  memToReg : Bool
  upperIm : Bool
  aluOp : Nat
  memReadType : Nat
  memWriteType : Nat
  fpRegWrite : Bool
  fpRegRead1 : Bool
  fpRegRead2 : Bool
  fpOp : Nat
  opcode : Nat
  rd : Nat
  funct3 : Nat
  rs1 : Nat
  rs2 : Nat
  funct7 : Nat
  rs1_data : Int
  rs2_data : Int
  immediate : Int
  rs1_fp_data : Nat
  rs2_fp_data : Nat
  pc : Nat
  instruction : Nat
  is_compressed : Bool
  compressed_inst : Nat
  valid : Bool

/-- The default-constructed `ID_EX_Register`. -/
def ID_EX_Register.init : ID_EX_Register :=
  { regWrite := false, aluSrc := false, branch := false, memRe := false,
    memWr := false, memToReg := false, upperIm := false, aluOp := 0,
    memReadType := 0, memWriteType := 0, fpRegWrite := false,
    fpRegRead1 := false, fpRegRead2 := false, fpOp := 0, opcode := 0,
    rd := 0, funct3 := 0, rs1 := 0, rs2 := 0, funct7 := 0, rs1_data := 0,
    rs2_data := 0, immediate := 0, rs1_fp_data := 0, rs2_fp_data := 0,
    pc := 0, instruction := 0, is_compressed := false, compressed_inst := 0,
    valid := false }

/-- `EX_MEM_Register`. -/
structure EX_MEM_Register where
  regWrite : Bool
  memRe : Bool
  memWr : Bool
  memToReg : Bool
  memReadType : Nat
  memWriteType : Nat
  fpRegWrite : Bool
  fp_result : Nat
  alu_result : Int
  rs2_data : Int
  rs2_fp_data : Nat
  rd : Nat
  pc : Nat
  instruction : Nat
  is_compressed : Bool
  compressed_inst : Nat
  valid : Bool

/-- The default-constructed `EX_MEM_Register`. -/
def EX_MEM_Register.init : EX_MEM_Register :=
  { regWrite := false, memRe := false, memWr := false, memToReg := false,
    memReadType := 0, memWriteType := 0, fpRegWrite := false, fp_result := 0,
    alu_result := 0, rs2_data := 0, rs2_fp_data := 0, rd := 0, pc := 0,
    instruction := 0, is_compressed := false, compressed_inst := 0,
    valid := false }

/-- `MEM_WB_Register`. -/
structure MEM_WB_Register where
  regWrite : Bool
  memToReg : Bool
  fpRegWrite : Bool
  fp_result : Nat
  mem_fp_data : Nat
  alu_result : Int
  mem_data : Int
  rd : Nat
  pc : Nat
  instruction : Nat
  is_compressed : Bool
  compressed_inst : Nat
  valid : Bool

/-- The default-constructed `MEM_WB_Register`. -/
def MEM_WB_Register.init : MEM_WB_Register :=
  { regWrite := false, memToReg := false, fpRegWrite := false, fp_result := 0,
    mem_fp_data := 0, alu_result := 0, mem_data := 0, rd := 0, pc := 0,
    instruction := 0, is_compressed := false, compressed_inst := 0,
    valid := false }

/-- The CPU state touched by the pipeline: PC, the two register files, the
four latches, the two forwarding snapshots, the control flags, the branch
prediction bookkeeping, `maxPC`, the data memory and the predictor. -/
structure CPUState where
  PC : Nat
  registers : Nat → Int
  registers_fp : Nat → Nat
  if_id : IF_ID_Register
  id_ex : ID_EX_Register
  ex_mem : EX_MEM_Register
  mem_wb : MEM_WB_Register
  ex_mem_prev : EX_MEM_Register
  mem_wb_prev : MEM_WB_Register
  pipeline_stall : Bool
  pipeline_flush : Bool
  branch_predicted_taken : Bool
  branch_predicted_target : Nat
  branch_pc : Nat
  maxPC : Nat
  dmem : Ram
  predictor : Predictor

/-- `CPU::get_register_value` as used by the decode stage (the register
index extracted from an instruction is a 5-bit field, so the `reg < 0` arm
of the guard cannot fire). -/
def get_register_value (s : CPUState) (reg : Nat) : Int :=
  if reg > 32 then 0 else s.registers reg

/-!  ## CPU.cpp — `decode_instruction` and `generate_immediate` -/

/-- The control signals produced by `CPU::decode_instruction` (the booleans
written through its out-parameters plus the `id_ex` width/FP fields it sets
directly). -/
structure DecodedControl where
  regWrite : Bool
  aluSrc : Bool
  branch : Bool
  memRe : Bool
  memWr : Bool
  memToReg : Bool
  upperIm : Bool
  aluOp : Nat
  memReadType : Nat
  memWriteType : Nat
  fpRegWrite : Bool
  fpRegRead1 : Bool
  fpRegRead2 : Bool
  fpOp : Nat

/-- The all-false default control word set at the top of
`decode_instruction` (and what the `default:` arm leaves in place). -/
def DecodedControl.nop : DecodedControl :=
  { regWrite := false, aluSrc := false, branch := false, memRe := false,
    memWr := false, memToReg := false, upperIm := false, aluOp := 0,
    memReadType := 0, memWriteType := 0, fpRegWrite := false,
    fpRegRead1 := false, fpRegRead2 := false, fpOp := 0 }

/-- The `switch (*opcode)` of `CPU::decode_instruction`; `none` is the
`case 0x00: return false` arm (program end), every other opcode returns
`true` with the signals of its case (`default:` keeps the NOP signals). -/
def decodeControl (opcode funct3 funct7 : Nat) : Option DecodedControl :=
  match opcode with
  | 0x33 =>
      let aluOp :=
        if funct7 = 0x01 then
          match funct3 with
          | 0x0 => 0x60 | 0x1 => 0x61 | 0x2 => 0x62 | 0x3 => 0x63
          | 0x4 => 0x64 | 0x5 => 0x65 | 0x6 => 0x66 | _ => 0x67
        else if funct3 = 0x0 ∧ funct7 = 0x00 then 0x00
        else if funct3 = 0x0 ∧ funct7 = 0x20 then 0x01
        else if funct3 = 0x6 ∧ funct7 = 0x00 then 0x11
        else if funct3 = 0x4 ∧ funct7 = 0x00 then 0x12
        else if funct3 = 0x1 ∧ funct7 = 0x00 then 0x20
        else if funct3 = 0x5 ∧ funct7 = 0x00 then 0x21
        else if funct3 = 0x5 ∧ funct7 = 0x20 then 0x22
        else if funct3 = 0x2 ∧ funct7 = 0x00 then 0x13
        else if funct3 = 0x3 ∧ funct7 = 0x00 then 0x14
        else if funct3 = 0x7 ∧ funct7 = 0x00 then 0x10
        else 0
      some { DecodedControl.nop with regWrite := true, aluOp := aluOp }
  | 0x13 =>
      if funct3 = 0x0 then some { DecodedControl.nop with regWrite := true, aluSrc := true, aluOp := 0x00 }
      else if funct3 = 0x2 then some { DecodedControl.nop with regWrite := true, aluSrc := true, aluOp := 0x15 }
      else if funct3 = 0x3 then some { DecodedControl.nop with regWrite := true, aluSrc := true, aluOp := 0x16 }
      else if funct3 = 0x4 then some { DecodedControl.nop with regWrite := true, aluSrc := true, aluOp := 0x17 }
      else if funct3 = 0x6 then some { DecodedControl.nop with regWrite := true, aluSrc := true, aluOp := 0x18 }
      else if funct3 = 0x7 then some { DecodedControl.nop with regWrite := true, aluSrc := true, aluOp := 0x19 }
      else if funct3 = 0x1 ∧ funct7 = 0x00 then some { DecodedControl.nop with regWrite := true, aluSrc := true, aluOp := 0x23 }
      else if funct3 = 0x5 ∧ funct7 = 0x00 then some { DecodedControl.nop with regWrite := true, aluSrc := true, aluOp := 0x24 }
      else if funct3 = 0x5 ∧ funct7 = 0x20 then some { DecodedControl.nop with regWrite := true, aluSrc := true, aluOp := 0x25 }
      else
        /- invalid funct3 for I-type: `regWrite` is reset, the instruction
           decodes as a NOP but remains valid. -/
        some { DecodedControl.nop with aluSrc := true, aluOp := 0 }
  | 0x03 =>
      let wt : Nat × Nat :=
        match funct3 with
        | 0x0 => (0x40, 1) | 0x4 => (0x41, 2) | 0x1 => (0x42, 3)
        | 0x5 => (0x43, 4) | 0x2 => (0x44, 5) | _ => (0, 0)
      some { DecodedControl.nop with
              regWrite := true, aluSrc := true, memRe := true,
              memToReg := true, aluOp := wt.1, memReadType := wt.2 }
  | 0x23 =>
      let wt : Nat × Nat :=
        match funct3 with
        | 0x0 => (0x45, 1) | 0x1 => (0x46, 2) | 0x2 => (0x47, 3) | _ => (0, 0)
      some { DecodedControl.nop with
              aluSrc := true, memWr := true, aluOp := wt.1,
              memWriteType := wt.2 }
  | 0x63 =>
      let aluOp :=
        match funct3 with
        | 0x0 => 0x30 | 0x1 => 0x35 | 0x2 => 0x30 | 0x4 => 0x33
        | 0x5 => 0x31 | 0x6 => 0x34 | 0x7 => 0x32 | _ => 0
      some { DecodedControl.nop with branch := true, aluOp := aluOp }
  | 0x67 => some { DecodedControl.nop with regWrite := true, aluSrc := true, branch := true, aluOp := 0x00 }
  | 0x6F => some { DecodedControl.nop with regWrite := true, aluSrc := true, branch := true, aluOp := 0x00 }
  | 0x37 => some { DecodedControl.nop with regWrite := true, aluSrc := true, upperIm := true, aluOp := 0xF }
  | 0x17 => some { DecodedControl.nop with regWrite := true, aluSrc := true, upperIm := true, aluOp := 0x00 }
  | 0x00 => none
  | 0x07 =>
      some { DecodedControl.nop with
              aluSrc := true, memRe := true, memToReg := true,
              aluOp := 0x44, memReadType := 6, fpRegWrite := true }
  | 0x27 =>
      some { DecodedControl.nop with
              aluSrc := true, memWr := true, aluOp := 0x47,
              memWriteType := 4, fpRegRead2 := true }
  | 0x53 =>
      let base := { DecodedControl.nop with
                     fpRegWrite := true, fpRegRead1 := true,
                     fpRegRead2 := true }
      if funct7 = 0x00 then
        if funct3 = 0x0 then some { base with fpOp := 0x70 }
        else if funct3 = 0x4 then some { base with fpOp := 0x71 }
        else if funct3 = 0x8 then some { base with fpOp := 0x72 }
        else if funct3 = 0xC then some { base with fpOp := 0x73 }
        else if funct3 = 0x10 then some { base with fpOp := 0x74 }
        else if funct3 = 0x14 then some { base with fpOp := 0x75 }
        else if funct3 = 0x18 then some { base with fpOp := 0x76 }
        else if funct3 = 0x50 then some { base with fpOp := 0x77 }
        else if funct3 = 0x60 then some { base with fpOp := 0x78, fpRegRead2 := false, regWrite := true }
        else if funct3 = 0x68 then some { base with fpOp := 0x79, fpRegRead1 := false, fpRegRead2 := false }
        else if funct3 = 0x70 then some { base with fpOp := 0x7A, fpRegRead2 := false, regWrite := true }
        else if funct3 = 0x78 then some { base with fpOp := 0x7B, fpRegRead1 := false, fpRegRead2 := false }
        else some base
      else if funct7 = 0x50 then
        if funct3 = 0x0 then some { base with fpOp := 0x7C, regWrite := true }
        else if funct3 = 0x1 then some { base with fpOp := 0x7D, regWrite := true }
        else if funct3 = 0x2 then some { base with fpOp := 0x7E, regWrite := true }
        else some base
      else if funct7 = 0x70 then
        if funct3 = 0x0 then some { base with fpOp := 0x7F, fpRegRead2 := false, regWrite := true }
        else some base
      else some base
  | _ => some DecodedControl.nop

/-- `CPU::sign_extend` for a `bits`-wide field held in the low bits of a
nonnegative pattern (`value |= ~0U << bits` when the sign bit is set). -/
def sign_extend (n bits : Nat) : Int :=
  if n / 2 ^ (bits - 1) % 2 = 1 then (n : Int) - 2 ^ bits else (n : Int)

/-- `CPU::generate_immediate` (shifts and masks written arithmetically;
the assembled B/J-type fields occupy disjoint bit ranges, so the ors are
sums). -/
def generate_immediate (instruction : Nat) (opcode : Nat) : Int :=
  match opcode with
  | 0x13 =>
      let imm := instruction / 1048576
      if instruction / 4096 % 8 = 0x1 then (imm % 32 : Nat)
      else if instruction / 4096 % 8 = 0x5 then (imm % 32 : Nat)
      else sign_extend imm 12
  | 0x03 => sign_extend (instruction / 1048576) 12
  | 0x67 => sign_extend (instruction / 1048576) 12
  | 0x23 =>
      sign_extend (Nat.land (instruction / 1048576) 0xFE0
                   + Nat.land (instruction / 128) 0x1F) 12
  | 0x63 =>
      sign_extend ((instruction / 2147483648 % 2) * 4096
                   + (instruction / 128 % 2) * 2048
                   + (instruction / 33554432 % 64) * 32
                   + (instruction / 256 % 16) * 2) 13
  | 0x6F =>
      sign_extend ((instruction / 2147483648 % 2) * 1048576
                   + (instruction / 2097152 % 1024) * 2
                   + (instruction / 1048576 % 2) * 2048
                   + (instruction / 4096 % 256) * 4096) 21
  | 0x37 => sext32 (instruction - instruction % 4096)
  | 0x17 => sext32 (instruction - instruction % 4096)
  | _ => 0

/-!  ## CPU.cpp — compressed fetch support

Only the quadrant-0 `funct3 = 0` arm of `expand_compressed_instruction`
(C.ADDI4SPN, whose all-zero immediate is the reserved encoding expanding
to 0) is exercised by the programs in this file; the remaining quadrants
are embedded as the fall-through result 0. -/

/-- `CPU::is_compressed_instruction`: low two bits are not `11`. -/
def is_compressed_instruction (inst : Nat) : Bool := inst % 4 ≠ 3

/-- `CPU::expand_compressed_instruction`, restricted to the C.ADDI4SPN
arm (see the section comment). -/
def expand_compressed_instruction (i : Nat) : Nat :=
  let op := i % 4
  let funct3 := i / 8192 % 8
  if op = 0 ∧ funct3 = 0 then
    let rdp := 8 + i / 4 % 8
    let imm := (i / 128 % 16) * 64 + (i / 2048 % 4) * 16
               + (i / 32 % 2) * 8 + (i / 64 % 2) * 4
    if imm = 0 then 0
    else 0x13 + rdp * 128 + 2 * 32768 + (imm * 4 % 4096) * 1048576
  else 0

/-!  ## CPU.cpp — the five pipeline stages

One `tick()` is `run_pipeline_cycle`: snapshot `ex_mem_prev`/`mem_wb_prev`,
then WB → MEM → EX → ID → IF.  Statistics counters, tracing and logging
are omitted (write-only observers).  The FP *datapath* of EX
(`execute_fp_operation` and friends) operates on IEEE floats and is not
modelled; every program decoded in this file has `fpOp = 0`, for which the
source also produces `fp_result = 0.0f` and keeps `alu_result` from the
integer ALU. -/

/-- `CPU::write_back_stage` (register-change tracking omitted). -/
def write_back_stage (s : CPUState) : CPUState :=
  if ¬ s.mem_wb.valid then s
  else
    let s1 :=
      if s.mem_wb.regWrite ∧ s.mem_wb.rd ≠ 0 then
        let wd := if s.mem_wb.memToReg then s.mem_wb.mem_data else s.mem_wb.alu_result
        { s with registers := fun r => if r = s.mem_wb.rd then wd else s.registers r }
      else s
    if s.mem_wb.fpRegWrite ∧ s.mem_wb.rd ≠ 0 then
      let wfd := if s.mem_wb.memToReg then s.mem_wb.mem_fp_data else s.mem_wb.fp_result
      { s1 with registers_fp := fun r => if r = s.mem_wb.rd then wfd else s1.registers_fp r }
    else s1

/-- `CPU::memory_stage`.  Note that the source copies neither `fpRegWrite`
nor `fp_result`/`mem_fp_data` into MEM/WB; those fields keep their previous
(stale) values, which the embedding preserves. -/
def memory_stage (s : CPUState) : CPUState :=
  if ¬ s.ex_mem.valid then
    { s with mem_wb := { s.mem_wb with valid := false } }
  else
    let addr := (toUInt32 s.ex_mem.alu_result).toNat
    let mem_data : Int :=
      if s.ex_mem.memRe then
        if s.ex_mem.memReadType = 6 then read_memory s.dmem addr 5
        else read_memory s.dmem addr s.ex_mem.memReadType
      else 0
    let dmem' :=
      if s.ex_mem.memRe then s.dmem
      else if s.ex_mem.memWr then
        if s.ex_mem.memWriteType = 4 then
          write_memory s.dmem addr (sext32 s.ex_mem.rs2_fp_data) 3
        else write_memory s.dmem addr s.ex_mem.rs2_data s.ex_mem.memWriteType
      else s.dmem
    { s with dmem := dmem',
              mem_wb := { s.mem_wb with
                regWrite := s.ex_mem.regWrite,
                memToReg := s.ex_mem.memToReg,
                alu_result := s.ex_mem.alu_result,
                mem_data := mem_data,
                rd := s.ex_mem.rd,
                pc := s.ex_mem.pc,
                instruction := s.ex_mem.instruction,
                is_compressed := s.ex_mem.is_compressed,
                compressed_inst := s.ex_mem.compressed_inst,
                valid := true } }

/-- The EX-stage forwarding mux for an integer source register `src`
falling back to the register-file value `latched` (`CPU::execute_stage`):
priority EX/MEM snapshot, then MEM/WB snapshot (loaded data if that
instruction was `memToReg`), else the value latched by ID.  Neither guard
consults the snapshot's `valid` bit. -/
def forwardOperand (e : EX_MEM_Register) (m : MEM_WB_Register)
    (src : Nat) (latched : Int) : Int :=
  if e.regWrite ∧ e.rd ≠ 0 ∧ e.rd = src then e.alu_result
  else if m.regWrite ∧ m.rd ≠ 0 ∧ m.rd = src then
    (if m.memToReg then m.mem_data else m.alu_result)
  else latched

/-- `CPU::execute_stage`. -/
def execute_stage (s : CPUState) : CPUState :=
  if ¬ s.id_ex.valid then
    { s with ex_mem := { s.ex_mem with valid := false } }
  else
    let e := s.ex_mem_prev
    let m := s.mem_wb_prev
    let operand1 := forwardOperand e m s.id_ex.rs1 s.id_ex.rs1_data
    let operand2 :=
      if s.id_ex.aluSrc then s.id_ex.immediate
      else forwardOperand e m s.id_ex.rs2 s.id_ex.rs2_data
    let operand1 := if s.id_ex.opcode = 0x37 ∧ s.id_ex.upperIm then s.id_ex.immediate else operand1
    let operand2 := if s.id_ex.opcode = 0x37 ∧ s.id_ex.upperIm then 0 else operand2
    let ar := aluExecute operand1 operand2 s.id_ex.aluOp
    if s.id_ex.opcode = 0x6F then
      /- JAL: link in `alu_result`, redirect, flush (early return: the
         FP fields of EX/MEM keep their previous values). -/
      { s with
        ex_mem := { s.ex_mem with
          regWrite := true, memRe := false, memWr := false, memToReg := false,
          memReadType := 0, memWriteType := 0,
          alu_result := toInt32 (s.id_ex.pc + 4), rs2_data := 0,
          rd := s.id_ex.rd, pc := s.id_ex.pc,
          instruction := s.id_ex.instruction,
          is_compressed := s.id_ex.is_compressed,
          compressed_inst := s.id_ex.compressed_inst, valid := true },
        PC := uadd32 s.id_ex.pc s.id_ex.immediate,
        pipeline_flush := true }
    else if s.id_ex.opcode = 0x67 then
      /- JALR: target `(operand1 + imm) & ~1`. -/
      let t := (toUInt32 (toInt32 (operand1 + s.id_ex.immediate))).toNat
      { s with
        ex_mem := { s.ex_mem with
          regWrite := true, memRe := false, memWr := false, memToReg := false,
          memReadType := 0, memWriteType := 0,
          alu_result := toInt32 (s.id_ex.pc + 4), rs2_data := 0,
          rd := s.id_ex.rd, pc := s.id_ex.pc,
          instruction := s.id_ex.instruction,
          is_compressed := s.id_ex.is_compressed,
          compressed_inst := s.id_ex.compressed_inst, valid := true },
        PC := t - t % 2,
        pipeline_flush := true }
    else
      let s1 :=
        if s.id_ex.branch then
          if s.id_ex.opcode = 0x63 then
            let should_branch :=
              match s.id_ex.aluOp with
              | 0x30 => ar.2
              | 0x35 => !ar.2
              | 0x31 => ar.2
              | 0x33 => ar.2
              | 0x32 => ar.2
              | 0x34 => ar.2
              | _ => false
            let target := uadd32 s.id_ex.pc s.id_ex.immediate
            let s' := { s with predictor := s.predictor.update s.id_ex.pc target should_branch }
            let mispredicted :=
              should_branch ≠ s.branch_predicted_taken
              ∨ (should_branch ∧ target ≠ s.branch_predicted_target)
            if mispredicted then
              { s' with PC := if should_branch then target else s.id_ex.pc + 4,
                         pipeline_flush := true }
            else s'
          else if s.id_ex.opcode = 0x6F ∨ s.id_ex.opcode = 0x67 then
            /- dead in the source too: those opcodes returned above. -/
            { s with PC := uadd32 s.id_ex.pc s.id_ex.immediate,
                      pipeline_flush := true }
          else s
        else s
      let forwarded_rs2 := forwardOperand e m s.id_ex.rs2 s.id_ex.rs2_data
      let forwarded_rs2_fp :=
        if e.fpRegWrite ∧ e.rd ≠ 0 ∧ e.rd = s.id_ex.rs2 ∧ s.id_ex.memWriteType = 4 then
          e.fp_result
        else if m.fpRegWrite ∧ m.rd ≠ 0 ∧ m.rd = s.id_ex.rs2 ∧ s.id_ex.memWriteType = 4 then
          (if m.memToReg then m.mem_fp_data else m.fp_result)
        else s.id_ex.rs2_fp_data
      { s1 with ex_mem := {
          regWrite := s.id_ex.regWrite,
          memRe := s.id_ex.memRe,
          memWr := s.id_ex.memWr,
          memToReg := s.id_ex.memToReg,
          memReadType := s.id_ex.memReadType,
          memWriteType := s.id_ex.memWriteType,
          fpRegWrite := s.id_ex.fpRegWrite,
          fp_result := 0,
          alu_result :=
            if s.id_ex.fpOp = 0x78 ∨ s.id_ex.fpOp = 0x7A ∨ s.id_ex.fpOp = 0x7C
               ∨ s.id_ex.fpOp = 0x7D ∨ s.id_ex.fpOp = 0x7E ∨ s.id_ex.fpOp = 0x7F
            then 0 else ar.1,
          rs2_data := forwarded_rs2,
          rs2_fp_data := forwarded_rs2_fp,
          rd := s.id_ex.rd,
          pc := s.id_ex.pc,
          instruction := s.id_ex.instruction,
          is_compressed := s.id_ex.is_compressed,
          compressed_inst := s.id_ex.compressed_inst,
          valid := true } }

/-- `CPU::instruction_decode` (statistics and dependency tracking
omitted). -/
def instruction_decode (s : CPUState) : CPUState :=
  if s.pipeline_flush then
    { s with id_ex := { s.id_ex with valid := false }, pipeline_flush := false }
  else if ¬ s.if_id.valid then
    { s with id_ex := { s.id_ex with valid := false } }
  else
    let instruction := s.if_id.instruction
    let opcode := instruction % 128
    let rd := instruction / 128 % 32
    let funct3 := instruction / 4096 % 8
    let rs1 := instruction / 32768 % 32
    let rs2 := instruction / 1048576 % 32
    let funct7 := instruction / 33554432 % 128
    match decodeControl opcode funct3 funct7 with
    | none =>
        /- `decode_instruction` returned false; its entry code already
           cleared the width and FP fields of ID/EX. -/
        { s with id_ex := { s.id_ex with
            memReadType := 0, memWriteType := 0, fpRegWrite := false,
            fpRegRead1 := false, fpRegRead2 := false, fpOp := 0,
            valid := false } }
    | some ctrl =>
        let rs1_data := if rs1 ≠ 0 then get_register_value s rs1 else 0
        let rs2_data := if rs2 ≠ 0 then get_register_value s rs2 else 0
        let rs1_fp_data := if ctrl.fpRegRead1 ∧ rs1 ≠ 0 then s.registers_fp rs1 else 0
        let rs2_fp_data := if ctrl.fpRegRead2 ∧ rs2 ≠ 0 then s.registers_fp rs2 else 0
        let immediate := generate_immediate instruction opcode
        let pred :=
          if ctrl.branch ∧ s.predictor ≠ .nullp ∧ opcode = 0x63 then
            let target := uadd32 s.if_id.pc immediate
            match s.predictor.predict s.if_id.pc target with
            | some p => some (p, target)
            | none => none
          else none
        let s1 :=
          match pred with
          | some ((ptaken, _), target) =>
              if ptaken then { s with PC := target, pipeline_flush := true } else s
          | none => s
        let bp : Bool × Nat × Nat :=
          match pred with
          | some ((ptaken, ptarget), _) => (ptaken, ptarget, s.if_id.pc)
          | none =>
              if ctrl.branch ∧ (opcode = 0x67 ∨ opcode = 0x6F) then
                (true, uadd32 s.if_id.pc immediate, s.if_id.pc)
              else (false, 0, 0)
        { s1 with
          branch_predicted_taken := bp.1,
          branch_predicted_target := bp.2.1,
          branch_pc := bp.2.2,
          id_ex := {
            regWrite := ctrl.regWrite, aluSrc := ctrl.aluSrc,
            branch := ctrl.branch, memRe := ctrl.memRe, memWr := ctrl.memWr,
            memToReg := ctrl.memToReg, upperIm := ctrl.upperIm,
            aluOp := ctrl.aluOp, memReadType := ctrl.memReadType,
            memWriteType := ctrl.memWriteType, fpRegWrite := ctrl.fpRegWrite,
            fpRegRead1 := ctrl.fpRegRead1, fpRegRead2 := ctrl.fpRegRead2,
            fpOp := ctrl.fpOp, opcode := opcode, rd := rd, funct3 := funct3,
            rs1 := rs1, rs2 := rs2, funct7 := funct7, rs1_data := rs1_data,
            rs2_data := rs2_data, immediate := immediate,
            rs1_fp_data := rs1_fp_data, rs2_fp_data := rs2_fp_data,
            pc := s.if_id.pc, instruction := instruction,
            is_compressed := s.if_id.is_compressed,
            compressed_inst := s.if_id.compressed_inst, valid := true } }

/-- `CPU::instruction_fetch` over a byte-indexed instruction image. -/
def instruction_fetch (im : Nat → Nat) (s : CPUState) : CPUState :=
  if s.pipeline_stall then s
  else if s.pipeline_flush then
    { s with if_id := { s.if_id with valid := false }, pipeline_flush := false }
  else if s.PC ≥ s.maxPC then
    { s with if_id := { s.if_id with valid := false } }
  else
    let b0 := im s.PC
    let b1 := im (s.PC + 1)
    if b0 = 0 ∧ b1 = 0 then
      { s with if_id := { s.if_id with valid := false } }
    else
      let inst16 := b0 + 256 * b1
      if is_compressed_instruction inst16 then
        let expanded := expand_compressed_instruction inst16
        { s with
          if_id := { instruction := expanded, pc := s.PC,
                     valid := decide (expanded ≠ 0), is_compressed := true,
                     compressed_inst := inst16 },
          PC := s.PC + 2 }
      else if b0 = 0 then
        { s with if_id := { s.if_id with valid := false } }
      else
        let word := b0 + 256 * b1 + 65536 * im (s.PC + 2)
                    + 16777216 * im (s.PC + 3)
        { s with
          if_id := { instruction := word, pc := s.PC, valid := true,
                     is_compressed := false, compressed_inst := 0 },
          PC := s.PC + 4 }

/-- The snapshot taken at the top of `run_pipeline_cycle`, so that EX
forwards from the previous cycle's EX/MEM and MEM/WB. -/
def snapshotPrev (s : CPUState) : CPUState :=
  { s with ex_mem_prev := s.ex_mem, mem_wb_prev := s.mem_wb }

/-- The state after the WB, MEM and EX stages of a tick (the point at
which a flush raised by EX is visible, before ID and IF run). -/
def cycleThroughEX (s : CPUState) : CPUState :=
  execute_stage (memory_stage (write_back_stage (snapshotPrev s)))

/-- `CPU::run_pipeline_cycle`: snapshots, the five stages in reverse
dataflow order, and the trailing clearing of a stall once the load has
left EX. -/
def run_pipeline_cycle (im : Nat → Nat) (s : CPUState) : CPUState :=
  let s5 := instruction_fetch im (instruction_decode (cycleThroughEX s))
  if s5.pipeline_stall ∧ ¬ s5.id_ex.memRe then
    { s5 with pipeline_stall := false }
  else s5

/-- `n` ticks of the pipeline. -/
def runCycles (im : Nat → Nat) (s : CPUState) : Nat → CPUState
  | 0 => s
  | n + 1 => runCycles im (run_pipeline_cycle im s) n

/-- The reset state of the CPU (`CPU::CPU()` / `CPU::reset`), with a given
program length, data memory of `MEMORY_SIZE` bytes, and predictor. -/
def initState (maxPC : Nat) (pred : Predictor) : CPUState :=
  { PC := 0,
    registers := fun _ => 0,
    registers_fp := fun _ => 0,
    if_id := IF_ID_Register.init,
    id_ex := ID_EX_Register.init,
    ex_mem := EX_MEM_Register.init,
    mem_wb := MEM_WB_Register.init,
    ex_mem_prev := EX_MEM_Register.init,
    mem_wb_prev := MEM_WB_Register.init,
    pipeline_stall := false,
    pipeline_flush := false,
    branch_predicted_taken := false,
    branch_predicted_target := 0,
    branch_pc := 0,
    maxPC := maxPC,
    dmem := { size := 4096, mem := fun _ => 0 },
    predictor := pred }

/-- An instruction image from a list of bytes (zero beyond the program). -/
def bytesToMem (bs : List Nat) : Nat → Nat := fun a => bs.getD a 0

/-!  ## BranchPredictor.h — `BimodalPredictor` (standalone) -/

/-- `BimodalPredictor` state: table size, the 2-bit counters, and the
accuracy counters. -/
structure BimodalPredictor where
  tableSize : Nat
  counters : Nat → Nat
  correct : Nat
  incorrect : Nat

/-- `BimodalPredictor::BimodalPredictor(table_size)`: every counter starts
at 1 (weakly not taken). -/
def BimodalPredictor.init (n : Nat) : BimodalPredictor :=
  { tableSize := n, counters := fun _ => 1, correct := 0, incorrect := 0 }

/-- `BimodalPredictor::hashPC`: `(pc >> 2) & (table_size_ - 1)`. -/
def BimodalPredictor.hashPC (b : BimodalPredictor) (pc : Nat) : Nat :=
  Nat.land (pc / 4) (b.tableSize - 1)

/-- `BimodalPredictor::predict`. -/
def BimodalPredictor.predict (b : BimodalPredictor) (pc target : Nat) :
    Bool × Nat :=
  let c := b.counters (b.hashPC pc)
  let t := decide (c ≥ 2)
  (t, if t then target else pc + 4)

/-- `BimodalPredictor::update`: score the old prediction, then saturate
the counter toward the actual outcome. -/
def BimodalPredictor.update (b : BimodalPredictor) (pc _target : Nat)
    (taken : Bool) : BimodalPredictor :=
  let idx := b.hashPC pc
  let c := b.counters idx
  let b1 :=
    if decide (c ≥ 2) = taken then { b with correct := b.correct + 1 }
    else { b with incorrect := b.incorrect + 1 }
  let c' :=
    if taken then (if c < 3 then c + 1 else c)
    else (if c > 0 then c - 1 else c)
  { b1 with counters := fun j => if j = idx then c' else b1.counters j }

/-- `BimodalPredictor::reset`: refill the counters with 1. -/
def BimodalPredictor.reset (b : BimodalPredictor) : BimodalPredictor :=
  { b with counters := fun _ => 1, correct := 0, incorrect := 0 }

/-- `k` consecutive `update(pc, target, true)` calls. -/
def BimodalPredictor.updateTakenN (b : BimodalPredictor) (pc target : Nat) :
    Nat → BimodalPredictor
  | 0 => b
  | k + 1 => (b.updateTakenN pc target k).update pc target true

/-!  ## CPU.cpp — `get_register_value` on the concrete register array

`CPU::get_register_value` guards with `reg < 0 || reg > 32` before
indexing `int32_t registers[32]`.  Embedding the array as a `List` of
length 32, `List.get?` returns `none` exactly when the C++ access reads
past the end of the array. -/

/-- `CPU::get_register_value` over the explicit 32-entry array; `none`
models an out-of-bounds array read. -/
def get_register_value_checked (regs : List Int) (reg : Int) : Option Int :=
  if reg < 0 ∨ reg > 32 then some 0 else regs.get? reg.toNat

/-!  ## The concrete programs used by the end-to-end claims -/

/-- Little-endian byte image of a list of 32-bit instruction words. -/
def wordsToBytes (ws : List Nat) : List Nat :=
  ws.foldr (fun w acc =>
    w % 256 :: w / 256 % 256 :: w / 65536 % 256 :: w / 16777216 % 256 :: acc) []

/-- The load-use program of scenario 3:
`addi sp, x0, 256; addi t1, x0, 42; sw t1, 0(sp); lw t0, 0(sp);
add a0, t0, x0` (sp = x2, t0 = x5, t1 = x6, a0 = x10). -/
def progC1 : List Nat :=
  wordsToBytes [0x10000113, 0x02A00313, 0x00612023, 0x00012283, 0x00028533]

/-- A taken conditional branch:
`beq x0, x0, +8; addi x1, x0, 7 (wrong path); addi a0, x0, 1 (target)`. -/
def progC2 : List Nat :=
  wordsToBytes [0x00000463, 0x00700093, 0x00100513]

/-- The load-use program with a bubble between the load and its consumer:
bytes 0-15 as in `progC1` up to the `lw`, then the reserved compressed
encoding `0x0004` (C.ADDI4SPN with zero immediate, which fetch expands to
0 and marks invalid while still advancing the PC by 2), then
`add a0, t0, x0`. -/
def progC5 : List Nat :=
  wordsToBytes [0x10000113, 0x02A00313, 0x00612023, 0x00012283]
  ++ [0x04, 0x00]
  ++ wordsToBytes [0x00028533]

/-!  ## The concrete cache run of scenario 6 (claim C4)

A 2-way set-associative cache with 2 sets and 16-byte lines (64 bytes
total) over a 64-byte RAM; five aligned word loads at 0, 16, 32, 48, 0. -/

/-- The lower RAM of the scenario (contents irrelevant to the counters). -/
def c4Lower : Ram := { size := 64, mem := fun _ => 0 }

/-- One scenario step: a word load through the cache (loads never change
the lower RAM). -/
def c4Step (c : SACache) (a : Nat) : SACache := (SACache.load c c4Lower a 4).1

/-- The cache after the first four loads (0, 16, 32, 48). -/
def c4AfterFour : SACache :=
  c4Step (c4Step (c4Step (c4Step (SACache.init 64 16 2) 0) 16) 32) 48

/-- The cache after all five loads (0, 16, 32, 48, 0). -/
def c4Final : SACache := c4Step c4AfterFour 0

/-!  ## Concrete states used by the theorems below -/

/-- A 16-byte RAM with zeroed contents. -/
def c7Ram : Ram := { size := 16, mem := fun _ => 0 }

/-- A 20-byte RAM whose every byte reads 9 (so a partial line fill leaves
a visible trace in a zero-initialised cache). -/
def c7Ram20 : Ram := { size := 20, mem := fun _ => 9 }

/-- A reset CPU whose `pipeline_flush` flag is raised. -/
def flushState : CPUState := { initState 0 .nullp with pipeline_flush := true }

/-- A CPU about to write back an FP result to FP register 0
(`mem_wb` valid, fp-write enabled, `rd = 0`, result pattern 7). -/
def c6State : CPUState :=
  { initState 0 .nullp with
    mem_wb := { MEM_WB_Register.init with
                 valid := true, fpRegWrite := true, rd := 0,
                 memToReg := false, fp_result := 7 } }

/-- A CPU about to write back an FP result to FP register 3. -/
def c6WriteState : CPUState :=
  { initState 0 .nullp with
    mem_wb := { MEM_WB_Register.init with
                 valid := true, fpRegWrite := true, rd := 3,
                 memToReg := false, fp_result := 7 } }

/-- A CPU with `fadd.s f0, f3, f0` (rs1 = f3) in IF/ID and 99 stored in
FP register 3. -/
def c6ReadState : CPUState :=
  { initState 0 .nullp with
    if_id := { IF_ID_Register.init with
                valid := true, instruction := 0x53 + 32768 * 3 },
    registers_fp := fun r => if r = 3 then 99 else 0 }

/-- A CPU with `fadd.s f0, f0, f0` (rs1 = f0) in IF/ID. -/
def c6Read0State : CPUState :=
  { initState 0 .nullp with
    if_id := { IF_ID_Register.init with valid := true, instruction := 0x53 },
    registers_fp := fun r => if r = 3 then 99 else 0 }

/-!  # Theorems

Shared lemmas first, then one theorem per claim (with its witness or
counterexample where required). -/

/-- A successful `SimpleRAM::store` followed by a `load` of the same size
at the same address returns the stored value (for values that fit the
access size). -/
theorem ram_store_load_roundtrip (r : Ram) (addr v sz : Nat)
    (hsz : sz = 1 ∨ sz = 2 ∨ sz = 4) (hv : v < 256 ^ sz)
    (hok : (ramStore r addr v sz).2 = true) :
    ramLoad (ramStore r addr v sz).1 addr sz = (true, v) := by
  by_cases hb : addr + sz > r.size
  · simp [ramStore, hb] at hok
  · simp only [ramStore, hb, ite_false, if_neg]
    simp only [ramLoad]
    rcases hsz with h | h | h <;> subst h <;>
      · simp only [hb, ite_false, if_neg, unpackLE, packLE]
        norm_num
        simp only [updByte]
        split_ifs <;> omega

/-- `DirectMappedCache::store` either fails, or its RAM component and
success flag are exactly those of the final write-through
`lower_->store`. -/
theorem dmStore_lowerWrite (c : DMCache) (lower : Ram) (addr v sz : Nat) :
    (DMCache.store c lower addr v sz).2.2 = false
  ∨ ((DMCache.store c lower addr v sz).2.1 = (ramStore lower addr v sz).1
     ∧ (DMCache.store c lower addr v sz).2.2 = (ramStore lower addr v sz).2) := by
  simp only [DMCache.store]
  split
  · left; rfl
  · right; exact ⟨rfl, rfl⟩

/-- `FullyAssociativeCache::store` either fails, or ends in the
write-through `lower_->store`. -/
theorem faStore_lowerWrite (c : FACache) (lower : Ram) (addr v sz : Nat) :
    (FACache.store c lower addr v sz).2.2 = false
  ∨ ((FACache.store c lower addr v sz).2.1 = (ramStore lower addr v sz).1
     ∧ (FACache.store c lower addr v sz).2.2 = (ramStore lower addr v sz).2) := by
  simp only [FACache.store]
  split
  · right; exact ⟨rfl, rfl⟩
  · split
    · right; exact ⟨rfl, rfl⟩
    · left; rfl

/-- `SetAssociativeCache::store` either fails, or ends in the
write-through `lower_->store`. -/
theorem saStore_lowerWrite (c : SACache) (lower : Ram) (addr v sz : Nat) :
    (SACache.store c lower addr v sz).2.2 = false
  ∨ ((SACache.store c lower addr v sz).2.1 = (ramStore lower addr v sz).1
     ∧ (SACache.store c lower addr v sz).2.2 = (ramStore lower addr v sz).2) := by
  simp only [SACache.store]
  split
  · right; exact ⟨rfl, rfl⟩
  · split
    · right; exact ⟨rfl, rfl⟩
    · left; rfl

/-- `BimodalPredictor::update` does not change the table size. -/
theorem BimodalPredictor.update_tableSize (b : BimodalPredictor)
    (pc target : Nat) (taken : Bool) :
    (b.update pc target taken).tableSize = b.tableSize := by
  simp only [BimodalPredictor.update]
  split <;> rfl

/-- Repeated taken updates do not change the table size. -/
theorem BimodalPredictor.updateTakenN_tableSize (b : BimodalPredictor)
    (pc target k : Nat) :
    (b.updateTakenN pc target k).tableSize = b.tableSize := by
  induction k with
  | zero => rfl
  | succ k ih =>
      rw [BimodalPredictor.updateTakenN, BimodalPredictor.update_tableSize, ih]

set_option maxRecDepth 1000000 in
/-- Claim C1: in the load-use scenario of scenario 3 (store 42 to 0x100,
`lw t0, 0(sp)` with sp = 0x100 immediately followed by
`add a0, t0, zero`, no stall inserted), the spec requires a0 = 42 after
the program drains.  On the code, the hazard check is commented out and
EX forwards the load's EX-stage ALU result (the address 0x100 = 256) from
the EX/MEM snapshot, so a0 ends up 256, not 42 — even though the store
and the load themselves work (t0 = 42, mem[256] = 42). -/
theorem C1_load_use_consumer_gets_address :
    (runCycles (bytesToMem progC1) (initState 20 .nullp) 9).registers 10 = 256
  ∧ (runCycles (bytesToMem progC1) (initState 20 .nullp) 9).registers 10 ≠ 42
  ∧ (runCycles (bytesToMem progC1) (initState 20 .nullp) 9).registers 5 = 42
  ∧ (runCycles (bytesToMem progC1) (initState 20 .nullp) 9).dmem.mem 256 = 42 := by
  refine ⟨?_, ?_, ?_, ?_⟩ <;> decide

/-- Claim C2 (amended): a flush already raised when ID runs is consumed by
ID, which invalidates ID/EX and clears the flag (so an EX-raised flush
never reaches IF); a flush still raised when IF runs (i.e. raised by ID's
predicted-taken branch) makes IF invalidate IF/ID, clear the flag and
leave the PC alone, so that redirect takes effect on the next tick's
fetch. -/
theorem C2_flush_semantics_amended :
    (∀ s : CPUState, s.pipeline_flush = true →
       (instruction_decode s).id_ex.valid = false
     ∧ (instruction_decode s).pipeline_flush = false)
  ∧ (∀ (im : Nat → Nat) (s : CPUState),
       s.pipeline_stall = false → s.pipeline_flush = true →
       (instruction_fetch im s).if_id.valid = false
     ∧ (instruction_fetch im s).pipeline_flush = false
     ∧ (instruction_fetch im s).PC = s.PC) := by
  constructor
  · intro s h
    simp [instruction_decode, h]
  · intro im s hs hf
    simp [instruction_fetch, hs, hf]

/-- Witness for claim C2's amended theorem at the concrete raised-flush
state. -/
theorem C2_flush_semantics_witness :
    ((instruction_decode flushState).id_ex.valid = false
     ∧ (instruction_decode flushState).pipeline_flush = false)
  ∧ ((instruction_fetch (bytesToMem progC2) flushState).if_id.valid = false
     ∧ (instruction_fetch (bytesToMem progC2) flushState).pipeline_flush = false
     ∧ (instruction_fetch (bytesToMem progC2) flushState).PC = flushState.PC) :=
  ⟨C2_flush_semantics_amended.1 flushState rfl,
   C2_flush_semantics_amended.2 (bytesToMem progC2) flushState rfl rfl⟩

set_option maxRecDepth 1000000 in
/-- Counterexample to claim C2 as stated: running
`beq x0, x0, +8; addi x1, x0, 7; addi a0, x0, 1` with no predictor, EX
asserts a flush during tick 3 (mid-tick state after WB/MEM/EX has
`pipeline_flush = true`), yet at the start of the next tick the IF/ID
latch is *valid* and already holds the redirect target at PC 8 — the
same tick's IF consumed the redirect, not the next tick's. -/
theorem C2_flush_next_tick_counterexample :
    (cycleThroughEX (runCycles (bytesToMem progC2) (initState 12 .nullp) 2)).pipeline_flush = true
  ∧ (runCycles (bytesToMem progC2) (initState 12 .nullp) 3).if_id.valid = true
  ∧ (runCycles (bytesToMem progC2) (initState 12 .nullp) 3).if_id.pc = 8
  ∧ (runCycles (bytesToMem progC2) (initState 12 .nullp) 8).registers 10 = 1 := by
  refine ⟨?_, ?_, ?_, ?_⟩ <;> decide

/-- Counterexample to claim C3 as stated: for BNE (op tag 0x35) the claim
says the zero flag is true iff the operands differ, but on operands 0 and
1 (which differ) the code's flag is false — `ALU.cpp` sets it to
`result == 0`, i.e. to operand equality, for BNE as well. -/
theorem C3_bne_flag_counterexample :
    ((0 : Int) ≠ 1) ∧ (aluExecute 0 1 0x35).2 = false :=
  ⟨by decide, by decide⟩

/-- Claim C3 (amended): for BEQ the zero flag is operand equality (the
branch condition), but for BNE it is *also* operand equality (the
negation of the condition, which EX compensates for by branching on
`!zero`); for BGEU/BLTU it is the unsigned comparison (the condition);
for BGE/BLT it is the sign of the wrapped 32-bit difference, which equals
the signed comparison exactly when `a - b` does not overflow; for every
non-branch op tag the flag is `result == 0`. -/
theorem C3_zero_flag_amended (a b : Int)
    (ha1 : -2147483648 ≤ a) (ha2 : a < 2147483648)
    (hb1 : -2147483648 ≤ b) (hb2 : b < 2147483648) :
    ((aluExecute a b 0x30).2 = decide (a = b))
  ∧ ((aluExecute a b 0x35).2 = decide (a = b))
  ∧ ((aluExecute a b 0x32).2 = decide (b % 4294967296 ≤ a % 4294967296))
  ∧ ((aluExecute a b 0x34).2 = decide (a % 4294967296 < b % 4294967296))
  ∧ ((aluExecute a b 0x31).2 = decide (0 ≤ toInt32 (a - b)))
  ∧ ((aluExecute a b 0x33).2 = decide (toInt32 (a - b) < 0))
  ∧ (-2147483648 ≤ a - b → a - b < 2147483648 →
       ((aluExecute a b 0x31).2 = decide (b ≤ a))
     ∧ ((aluExecute a b 0x33).2 = decide (a < b)))
  ∧ (∀ op : Nat, op ∉ ([0x30, 0x31, 0x32, 0x33, 0x34, 0x35] : List Nat) →
       (aluExecute a b op).2 = decide ((aluExecute a b op).1 = 0)) := by
  refine ⟨?_, ?_, ?_, ?_, ?_, ?_, ?_, ?_⟩
  · show decide (toInt32 (a - b) = 0) = decide (a = b)
    rw [decide_eq_decide]
    unfold toInt32
    omega
  · show decide (toInt32 (a - b) = 0) = decide (a = b)
    rw [decide_eq_decide]
    unfold toInt32
    omega
  · show decide (toUInt32 b ≤ toUInt32 a) = _
    rfl
  · show decide (toUInt32 a < toUInt32 b) = _
    rfl
  · rfl
  · rfl
  · intro h1 h2
    constructor
    · show decide (0 ≤ toInt32 (a - b)) = decide (b ≤ a)
      rw [decide_eq_decide]
      unfold toInt32
      omega
    · show decide (toInt32 (a - b) < 0) = decide (a < b)
      rw [decide_eq_decide]
      unfold toInt32
      omega
  · intro op hop
    simp only [aluExecute]
    split <;> simp_all

/-- Witness for claim C3's amended theorem at operands 1 and 2. -/
theorem C3_zero_flag_witness :
    ((aluExecute 1 2 0x30).2 = decide ((1 : Int) = 2))
  ∧ ((aluExecute 1 2 0x35).2 = decide ((1 : Int) = 2))
  ∧ ((aluExecute 1 2 0x32).2 = decide ((2 : Int) % 4294967296 ≤ 1 % 4294967296))
  ∧ ((aluExecute 1 2 0x34).2 = decide ((1 : Int) % 4294967296 < 2 % 4294967296))
  ∧ ((aluExecute 1 2 0x31).2 = decide (0 ≤ toInt32 (1 - 2)))
  ∧ ((aluExecute 1 2 0x33).2 = decide (toInt32 (1 - 2) < 0))
  ∧ (-2147483648 ≤ (1 : Int) - 2 → (1 : Int) - 2 < 2147483648 →
       ((aluExecute 1 2 0x31).2 = decide ((2 : Int) ≤ 1))
     ∧ ((aluExecute 1 2 0x33).2 = decide ((1 : Int) < 2)))
  ∧ (∀ op : Nat, op ∉ ([0x30, 0x31, 0x32, 0x33, 0x34, 0x35] : List Nat) →
       (aluExecute 1 2 op).2 = decide ((aluExecute 1 2 op).1 = 0)) :=
  C3_zero_flag_amended 1 2 (by decide) (by decide) (by decide) (by decide)

set_option maxRecDepth 1000000 in
/-- Counterexample to claim C4 as stated: in the 2-way, 2-set,
16-byte-line cache, the line base 48 decodes to set 1, not set 0 (the
set index is the low bit of the line number), and after the five loads
0, 16, 32, 48, 0 the counters read hits = 1 and misses = 4, not
hits = 0 and misses = 5. -/
theorem C4_set_mapping_counterexample :
    ((SACache.init 64 16 2).decode 48).1 ≠ 0
  ∧ ¬ (c4Final.hits = 0 ∧ c4Final.misses = 5) := by
  refine ⟨by decide, by decide⟩

set_option maxRecDepth 1000000 in
/-- Claim C4 (amended): the five aligned word loads at 0, 16, 32, 48, 0
map to sets 0, 1, 0, 1, 0 (set index = line number mod 2), so each set
holds both of its two lines; the first four accesses all miss, the final
access to 0 finds its line still resident and *hits*, and the counters
read hits = 1, misses = 4. -/
theorem C4_lru_scenario_amended :
    ((SACache.init 64 16 2).decode 0).1 = 0
  ∧ ((SACache.init 64 16 2).decode 16).1 = 1
  ∧ ((SACache.init 64 16 2).decode 32).1 = 0
  ∧ ((SACache.init 64 16 2).decode 48).1 = 1
  ∧ c4AfterFour.hits = 0
  ∧ c4AfterFour.misses = 4
  ∧ c4Final.hits = 1
  ∧ c4Final.misses = 4 := by
  refine ⟨?_, ?_, ?_, ?_, ?_, ?_, ?_, ?_⟩ <;> decide

set_option maxRecDepth 1000000 in
/-- Claim C5: the spec's invariant says a `valid = false` latch
contributes nothing observable.  On the code, after
`addi sp; addi t1, 42; sw; lw t0, 0(sp); <reserved compressed word>;
add a0, t0, x0`, tick 7 leaves the EX/MEM latch invalid but with the
load's stale `regWrite = true`, `rd = 5` and `alu_result = 256`; at tick
8 the forwarding mux (which never checks `valid`) hands the consumer the
stale 256, whereas the same mux with that snapshot's data fields cleared
would fall through to the valid MEM/WB snapshot and produce the loaded
42.  The run ends with a0 = 256 instead of 42. -/
theorem C5_invalid_latch_forwards_stale_value :
    (runCycles (bytesToMem progC5) (initState 22 .nullp) 7).ex_mem.valid = false
  ∧ (runCycles (bytesToMem progC5) (initState 22 .nullp) 7).ex_mem.regWrite = true
  ∧ (runCycles (bytesToMem progC5) (initState 22 .nullp) 7).ex_mem.rd = 5
  ∧ (runCycles (bytesToMem progC5) (initState 22 .nullp) 7).ex_mem.alu_result = 256
  ∧ forwardOperand (runCycles (bytesToMem progC5) (initState 22 .nullp) 7).ex_mem
      (runCycles (bytesToMem progC5) (initState 22 .nullp) 7).mem_wb 5 0 = 256
  ∧ forwardOperand { (runCycles (bytesToMem progC5) (initState 22 .nullp) 7).ex_mem with
        regWrite := false, rd := 0, alu_result := 0 }
      (runCycles (bytesToMem progC5) (initState 22 .nullp) 7).mem_wb 5 0 = 42
  ∧ (runCycles (bytesToMem progC5) (initState 22 .nullp) 10).registers 10 = 256
  ∧ (runCycles (bytesToMem progC5) (initState 22 .nullp) 10).registers 5 = 42 := by
  refine ⟨?_, ?_, ?_, ?_, ?_, ?_, ?_, ?_⟩ <;> decide

/-- Counterexample to claim C6 as stated: a committed instruction with
fp-write enabled and destination FP register 0 does *not* store its
result — the write-back guard `rd != 0` discards it, so f0 still reads 0
rather than the result pattern 7. -/
theorem C6_fp_write_to_f0_counterexample :
    (write_back_stage c6State).registers_fp 0 = 0 ∧ (0 : Nat) ≠ 7 :=
  ⟨by decide, by decide⟩

/-- Claim C6 (amended): the FP register file does treat index 0 specially,
exactly like the integer one: write-back discards FP writes whose
destination is 0 (leaving every FP register unchanged), and decode's FP
read of register 0 yields 0; for destinations 1..31 write-back stores the
FP result (loaded data when `memToReg`) and a later decode FP read
returns the stored value. -/
theorem C6_fp_regfile_amended :
    (∀ s : CPUState, s.mem_wb.valid = true → s.mem_wb.fpRegWrite = true →
       1 ≤ s.mem_wb.rd →
       (write_back_stage s).registers_fp s.mem_wb.rd
         = (if s.mem_wb.memToReg then s.mem_wb.mem_fp_data else s.mem_wb.fp_result))
  ∧ (∀ (s : CPUState) (x : Nat), s.mem_wb.rd = 0 →
       (write_back_stage s).registers_fp x = s.registers_fp x)
  ∧ (∀ (s : CPUState) (r : Nat), 1 ≤ r → r ≤ 31 →
       s.pipeline_flush = false → s.if_id.valid = true →
       s.if_id.instruction = 0x53 + 32768 * r →
       (instruction_decode s).id_ex.rs1_fp_data = s.registers_fp r)
  ∧ (∀ s : CPUState,
       s.pipeline_flush = false → s.if_id.valid = true →
       s.if_id.instruction = 0x53 →
       (instruction_decode s).id_ex.rs1_fp_data = 0) := by
  refine ⟨?_, ?_, ?_, ?_⟩
  · intro s hv hfp hrd
    have hne : s.mem_wb.rd ≠ 0 := by omega
    simp [write_back_stage, hv, hfp, hne]
  · intro s x h0
    simp [write_back_stage, h0]
  · intro s r h1 h31 hf hv hinst
    have hop : (0x53 + 32768 * r) % 128 = 0x53 := by omega
    have hf3 : (0x53 + 32768 * r) / 4096 % 8 = 0 := by omega
    have hrs1 : (0x53 + 32768 * r) / 32768 % 32 = r := by omega
    have hf7 : (0x53 + 32768 * r) / 33554432 % 128 = 0 := by omega
    have hr0 : r ≠ 0 := by omega
    simp [instruction_decode, hf, hv, hinst, hop, hf3, hrs1, hf7, decodeControl, hr0]
  · intro s hf hv hinst
    simp [instruction_decode, hf, hv, hinst, decodeControl]

/-- Witness for claim C6's amended theorem: a write-back to f3, the
discarded write to f0, the decode read of f3 = 99, and the decode read
of f0 = 0, all at concrete states. -/
theorem C6_fp_regfile_witness :
    ((write_back_stage c6WriteState).registers_fp c6WriteState.mem_wb.rd
       = (if c6WriteState.mem_wb.memToReg then c6WriteState.mem_wb.mem_fp_data
          else c6WriteState.mem_wb.fp_result))
  ∧ ((write_back_stage c6State).registers_fp 5 = c6State.registers_fp 5)
  ∧ ((instruction_decode c6ReadState).id_ex.rs1_fp_data = c6ReadState.registers_fp 3)
  ∧ ((instruction_decode c6Read0State).id_ex.rs1_fp_data = 0) :=
  ⟨C6_fp_regfile_amended.1 c6WriteState rfl rfl (by decide),
   C6_fp_regfile_amended.2.1 c6State 5 rfl,
   C6_fp_regfile_amended.2.2.1 c6ReadState 3 (by decide) (by decide) rfl rfl rfl,
   C6_fp_regfile_amended.2.2.2 c6Read0State rfl rfl rfl⟩

/-- Counterexample to claim C7 as stated: the devices do not check
alignment — a halfword load at the odd address 1 of a 16-byte RAM
succeeds (`ok = true`), and a halfword store at address 1 succeeds and
changes the byte at address 1, instead of returning `ok = false` with no
side effect. -/
theorem C7_misaligned_device_access_counterexample :
    (ramLoad c7Ram 1 2).1 = true
  ∧ (ramStore c7Ram 1 171 2).2 = true
  ∧ (ramStore c7Ram 1 171 2).1.mem 1 = 171 :=
  ⟨by decide, by decide, by decide⟩

set_option maxRecDepth 1000000 in
/-- Claim C7 (amended): only the backing RAM enforces the extent rule —
it returns `ok = false` with contents unchanged exactly for accesses not
fully within its extent, and does not check alignment.  The cache
variants enforce neither alignment nor an extent rule of their own: an
access through a cache fails only when a line-fill word-load to the lower
device fails, so an access that is not fully within the lower extent can
even succeed when its line's fill stays in range (the word load at 14 of
a 16-byte lower RAM through an 8-byte-line cache); and a rejected access
still has side effects — the miss counter is bumped, a partially filled
line leaves its already-written bytes behind (the byte 9 fetched from the
20-byte lower RAM before the fill failed), and the FA/SA LRU order is
rotated by `getLRUVictim`.  Natural alignment (and the 4096-byte pipeline
bound) is enforced by the pipeline's `check_address_alignment`, after
which `read_memory` returns 0 and `write_memory` discards the store
without touching any device. -/
theorem C7_device_bounds_and_pipeline_alignment_amended :
    (∀ (r : Ram) (addr sz v : Nat), addr + sz > r.size →
        ramLoad r addr sz = (false, 0) ∧ ramStore r addr v sz = (r, false))
  ∧ (∀ address bytes : Nat,
        address ≥ 4096 ∨ (bytes = 2 ∧ address % 2 ≠ 0) ∨ (bytes = 4 ∧ address % 4 ≠ 0) →
        check_address_alignment address bytes = false)
  ∧ (∀ (r : Ram) (address : Nat) (value : Int) (ty : Nat),
        check_address_alignment address (writeSize ty) = false →
        write_memory r address value ty = r)
  ∧ (∀ (r : Ram) (address ty : Nat),
        check_address_alignment address (readSize ty) = false →
        read_memory r address ty = 0)
  ∧ ((14 + 4 > c7Ram.size) ∧ (DMCache.load (DMCache.init 32 8) c7Ram 14 4).2.1 = true)
  ∧ ((DMCache.load (DMCache.init 32 8) c7Ram 20 4).2.1 = false
     ∧ (DMCache.load (DMCache.init 32 8) c7Ram 20 4).1.misses = 1
     ∧ (DMCache.init 32 8).misses = 0)
  ∧ ((DMCache.load (DMCache.init 32 8) c7Ram20 16 4).2.1 = false
     ∧ (DMCache.load (DMCache.init 32 8) c7Ram20 16 4).1.data 16 = 9
     ∧ (DMCache.init 32 8).data 16 = 0)
  ∧ ((FACache.load (FACache.init 32 8) c7Ram 20 4).2.1 = false
     ∧ (FACache.load (FACache.init 32 8) c7Ram 20 4).1.lruList = [3, 0, 1, 2]
     ∧ (FACache.init 32 8).lruList = [0, 1, 2, 3])
  ∧ ((SACache.load (SACache.init 32 8 2) c7Ram 20 4).2.1 = false
     ∧ (SACache.load (SACache.init 32 8 2) c7Ram 20 4).1.lruLists 0 = [1, 0]
     ∧ (SACache.init 32 8 2).lruLists 0 = [0, 1]) := by
  refine ⟨?_, ?_, ?_, ?_, ?_, ?_, ?_, ?_, ?_⟩
  · intro r addr sz v h
    exact ⟨by simp [ramLoad, h], by simp [ramStore, h]⟩
  · intro address bytes h
    unfold check_address_alignment
    split_ifs <;> first | rfl | omega
  · intro r address value ty h
    simp [write_memory, h]
  · intro r address ty h
    simp [read_memory, h]
  · exact ⟨by decide, by decide⟩
  · exact ⟨by decide, by decide, by decide⟩
  · exact ⟨by decide, by decide, by decide⟩
  · exact ⟨by decide, by decide, by decide⟩
  · exact ⟨by decide, by decide, by decide⟩

/-- Witness for claim C7's amended theorem: an out-of-range word access
at address 15 of the 16-byte RAM, the failing alignment check for a
halfword at address 1, and the no-op `write_memory`/`read_memory` for a
misaligned word access (the cache clauses of the theorem are closed and
carry no hypothesis). -/
theorem C7_device_bounds_witness :
    (ramLoad c7Ram 15 4 = (false, 0) ∧ ramStore c7Ram 15 7 4 = (c7Ram, false))
  ∧ check_address_alignment 1 2 = false
  ∧ write_memory c7Ram 1 5 3 = c7Ram
  ∧ read_memory c7Ram 1 5 = 0 :=
  ⟨C7_device_bounds_and_pipeline_alignment_amended.1 c7Ram 15 4 7 (by decide),
   C7_device_bounds_and_pipeline_alignment_amended.2.1 1 2 (by decide),
   C7_device_bounds_and_pipeline_alignment_amended.2.2.1 c7Ram 1 5 3 (by decide),
   C7_device_bounds_and_pipeline_alignment_amended.2.2.2.1 c7Ram 1 5 (by decide)⟩

/-- Claim C8: write-through holds for all three cache variants — whenever
a store through the cache succeeds (hit or miss), a load of the same size
at the same address issued directly to the lower RAM returns the stored
value. -/
theorem C8_write_through :
    (∀ (c : DMCache) (lower : Ram) (addr v sz : Nat),
        sz = 1 ∨ sz = 2 ∨ sz = 4 → v < 256 ^ sz →
        (DMCache.store c lower addr v sz).2.2 = true →
        ramLoad (DMCache.store c lower addr v sz).2.1 addr sz = (true, v))
  ∧ (∀ (c : FACache) (lower : Ram) (addr v sz : Nat),
        sz = 1 ∨ sz = 2 ∨ sz = 4 → v < 256 ^ sz →
        (FACache.store c lower addr v sz).2.2 = true →
        ramLoad (FACache.store c lower addr v sz).2.1 addr sz = (true, v))
  ∧ (∀ (c : SACache) (lower : Ram) (addr v sz : Nat),
        sz = 1 ∨ sz = 2 ∨ sz = 4 → v < 256 ^ sz →
        (SACache.store c lower addr v sz).2.2 = true →
        ramLoad (SACache.store c lower addr v sz).2.1 addr sz = (true, v)) := by
  refine ⟨?_, ?_, ?_⟩
  · intro c lower addr v sz hsz hv hok
    rcases dmStore_lowerWrite c lower addr v sz with h | ⟨h1, h2⟩
    · rw [hok] at h; exact absurd h (by decide)
    · rw [h1]
      exact ram_store_load_roundtrip lower addr v sz hsz hv (h2 ▸ hok)
  · intro c lower addr v sz hsz hv hok
    rcases faStore_lowerWrite c lower addr v sz with h | ⟨h1, h2⟩
    · rw [hok] at h; exact absurd h (by decide)
    · rw [h1]
      exact ram_store_load_roundtrip lower addr v sz hsz hv (h2 ▸ hok)
  · intro c lower addr v sz hsz hv hok
    rcases saStore_lowerWrite c lower addr v sz with h | ⟨h1, h2⟩
    · rw [hok] at h; exact absurd h (by decide)
    · rw [h1]
      exact ram_store_load_roundtrip lower addr v sz hsz hv (h2 ▸ hok)

set_option maxRecDepth 100000 in
/-- Witness for claim C8's theorem: a missing word store of 171 at
address 8 through each freshly constructed cache variant over the
16-byte RAM, followed by a direct word load from the RAM. -/
theorem C8_write_through_witness :
    ramLoad (DMCache.store (DMCache.init 16 4) c7Ram 8 171 4).2.1 8 4 = (true, 171)
  ∧ ramLoad (FACache.store (FACache.init 16 4) c7Ram 8 171 4).2.1 8 4 = (true, 171)
  ∧ ramLoad (SACache.store (SACache.init 16 4 2) c7Ram 8 171 4).2.1 8 4 = (true, 171) :=
  ⟨C8_write_through.1 (DMCache.init 16 4) c7Ram 8 171 4 (by decide) (by decide) (by decide),
   C8_write_through.2.1 (FACache.init 16 4) c7Ram 8 171 4 (by decide) (by decide) (by decide),
   C8_write_through.2.2 (SACache.init 16 4 2) c7Ram 8 171 4 (by decide) (by decide) (by decide)⟩

/-- Claim C9: for the bimodal predictor with any table size, any PC and
any 2-bit value `c0` of the counter at that PC's index, `k` consecutive
taken updates at that PC leave the counter at `min(3, c0 + k)`; at
construction and after `reset` every counter is 1 (weakly not taken). -/
theorem C9_bimodal_saturating_counters (N pc target c0 k : Nat)
    (b : BimodalPredictor) (hN : b.tableSize = N)
    (hc : b.counters (Nat.land (pc / 4) (N - 1)) = c0) (h3 : c0 ≤ 3) :
    (b.updateTakenN pc target k).counters (Nat.land (pc / 4) (N - 1)) = min 3 (c0 + k)
  ∧ (∀ i, (BimodalPredictor.init N).counters i = 1)
  ∧ (∀ i, (BimodalPredictor.reset b).counters i = 1) := by
  refine ⟨?_, fun _ => rfl, fun _ => rfl⟩
  induction k with
  | zero =>
      simp only [BimodalPredictor.updateTakenN, hc]
      omega
  | succ k ih =>
      have hts := BimodalPredictor.updateTakenN_tableSize b pc target k
      rw [BimodalPredictor.updateTakenN]
      simp [BimodalPredictor.update, BimodalPredictor.hashPC, hts, hN, ih]
      split <;> omega

/-- Witness for claim C9's theorem: five taken updates at PC 0 on a
fresh 4-entry table saturate its counter at `min(3, 1 + 5) = 3`. -/
theorem C9_bimodal_witness :
    ((BimodalPredictor.init 4).updateTakenN 0 0 5).counters (Nat.land (0 / 4) (4 - 1))
      = min 3 (1 + 5)
  ∧ (∀ i, (BimodalPredictor.init 4).counters i = 1)
  ∧ (∀ i, (BimodalPredictor.reset (BimodalPredictor.init 4)).counters i = 1) :=
  C9_bimodal_saturating_counters 4 0 0 1 5 (BimodalPredictor.init 4) rfl rfl (by decide)

/-- Claim C10: the guard of `CPU::get_register_value` is
`reg < 0 || reg > 32`, so index 32 passes it and the code reads
`registers[32]`, one element past the end of the 32-entry array: the
embedding's array access returns `none` (out of bounds) at reg = 32
instead of the claimed in-bounds behaviour of returning 0 for every
index outside 0..31. -/
theorem C10_get_register_value_off_by_one :
    get_register_value_checked (List.replicate 32 0) 32 = none
  ∧ (∀ i : Int, i > 32 ∨ i < 0 → get_register_value_checked (List.replicate 32 0) i = some 0) := by
  constructor
  · decide
  · intro i hi
    have : i < 0 ∨ i > 32 := by omega
    simp [get_register_value_checked, this]

/-- Witness for claim C10's theorem at index 33. -/
theorem C10_get_register_value_witness :
    get_register_value_checked (List.replicate 32 0) 32 = none
  ∧ get_register_value_checked (List.replicate 32 0) 33 = some 0 :=
  ⟨C10_get_register_value_off_by_one.1,
   C10_get_register_value_off_by_one.2 33 (by decide)⟩
